import Mathlib

/-!
Shallow embedding of the Pharma research-crew pipeline and its scraping
tools, with theorems checking the natural-language specification against
the code.

The embedding covers:
* `src/agents/master_agent.py` — `run_comprehensive_research_crew`: the
  four-stage task pipeline, its agent/task lists, inter-stage context
  wiring, sequential process flag, and result extraction;
* `src/tools/database_scraping_tools.py` — `scrape_orphanet`,
  `scrape_rare_diseases_info` and the `search_orphanet_rare_disease` tool;
* `src/tools/web_scraping_tools.py` — `scrape_clean_text`,
  `scrape_google_scholar`, `scrape_drugbank_info`,
  `scrape_bioRxiv_preprints`, `scrape_company_pipeline` and the
  `extract_webpage_content` tool.

External effects (HTTP fetches, HTML parsing, the scholarly library, the
CrewAI kickoff) are modelled by explicit "world" records that give the
outcome of each effectful call; Python exceptions are modelled by
`Except String`, and a `try/except` block by `pyTry`.  Each scraper also
returns the trace of network/sleep effects it performs, so that claims
about retries and rate limiting are statable.
-/

namespace Pharma

/-! ### Python values

A Python value as far as shape analysis needs: scalars, lists,
string-keyed dictionaries, and `None`. -/

inductive PyVal where
  | str (s : String)
  | int (n : Int)
  | list (xs : List PyVal)
  | dict (kvs : List (String × PyVal))
  | none
deriving Repr

/-- A scalar value in the sense of the spec: a string or a number. -/
def PyVal.isScalar : PyVal → Bool
  | .str _ => true
  | .int _ => true
  | _ => false

/-- A list value all of whose elements are strings. -/
def PyVal.isStrList : PyVal → Bool
  | .list xs => xs.all fun v => match v with | .str _ => true | _ => false
  | _ => false

/-- Dictionary lookup, `k in d` / `d.get(k)` style: first binding wins. -/
def PyVal.lookup (v : PyVal) (k : String) : Option PyVal :=
  match v with
  | .dict kvs => (kvs.find? fun kv => kv.1 == k).map (·.2)
  | _ => Option.none

/-- Python `str()` / f-string rendering, for the value shapes the tools
actually format (strings and numbers; the remaining cases are
placeholders that never arise in the proofs). -/
def pyStr : PyVal → String
  | .str s => s
  | .int n => toString n
  | .none => "None"
  | .list _ => "[...]"
  | .dict _ => "\x7b...\x7d"

/-- A flat key/value dictionary in the spec's sense: every value is a
scalar string or number. -/
def PyVal.isFlatDict : PyVal → Bool
  | .dict kvs => kvs.all fun kv => kv.2.isScalar
  | _ => false

/-- The shape the spec claims for scraper outputs: a flat dictionary or a
list of flat dictionaries. -/
def PyVal.isFlatOutput : PyVal → Bool
  | .dict kvs => PyVal.isFlatDict (.dict kvs)
  | .list xs => xs.all fun v => v.isFlatDict
  | _ => false

/-! ### Python exceptions -/

/-- A Python `try/except Exception as e` block: run the body; an uncaught
exception is handed to the handler. -/
def pyTry (body : Except String α) (handler : String → Except String α) :
    Except String α :=
  match body with
  | .ok v => .ok v
  | .error e => handler e

/-- `response.raise_for_status()`: raises iff the response carries an
HTTP error status (modelled as an optional error message). -/
def raise_for_status : Option String → Except String Unit
  | Option.some e => .error e
  | Option.none => .ok ()

/-! ### Effect traces -/

/-- One observable side effect of a scraper. -/
inductive Effect where
  | httpGet (url : String)
  | fetchUrl (url : String)
  | scholarSearch (query : String)
  | scholarFill
  | sleep (seconds : Nat)
deriving Repr, DecidableEq

/-! ### Crew data model (`crewai` primitives as configured by this repo)

`run_comprehensive_research_crew` receives six already-constructed agent
objects as parameters; we identify them by which parameter they came in
as.  A `Task`'s `context` list holds earlier tasks; we identify tasks by
their stage. -/

/-- The six agents handed to `run_comprehensive_research_crew`. -/
inductive AgentId where
  | masterAgent
  | clinicalAgent
  | drugAgent
  | literatureAgent
  | marketAgent
  | deepResearchAgent
deriving Repr, DecidableEq

/-- The four pipeline stages, identifying the four `Task` objects. -/
inductive StageId where
  | stage1
  | stage2
  | stage3
  | stage4
deriving Repr, DecidableEq

/-- A `crewai.Task` as constructed in `run_comprehensive_research_crew`:
description, assigned agent, expected output, and the context list of
earlier tasks (by stage; `[]` when the `context` argument is omitted). -/
structure Task where
  stage : StageId
  description : String
  agent : AgentId
  expected_output : String
  context : List StageId
deriving Repr

/-- The `crewai.Process` execution modes. -/
inductive ProcessKind where
  | sequential
  | hierarchical
deriving Repr, DecidableEq

/-- A `crewai.Crew` as constructed in `run_comprehensive_research_crew`. -/
structure Crew where
  agents : List AgentId
  tasks : List Task
  process : ProcessKind
  verbose : Bool
  full_output : Bool
deriving Repr

/-! ### Task descriptions and expected outputs (the f-string templates) -/

/-- Stage 1 task description template. -/
def stage1_description (user_query : String) : String :=
  "\n        STAGE 1: INITIAL DISCOVERY (Target: 5-10 minutes)\n        \n        Research Question: \"" ++ user_query ++ "\"\n        \n        Objectives:\n        1. Identify 5-10 candidate respiratory drugs currently approved for common conditions\n        2. Search ClinicalTrials.gov for any trials in rare diseases\n        3. Get basic PubMed literature (10-15 papers)\n        4. List potential rare respiratory diseases for repurposing\n        \n        Deliverable: Initial candidate list with brief rationale for each drug\n        "

/-- Stage 2 task description template. -/
def stage2_description : String :=
  "\n        STAGE 2: DEEP MECHANISM ANALYSIS (Target: 10-15 minutes)\n        \n        Based on Stage 1 findings, conduct deep analysis:\n        \n        For TOP 3 candidate drugs:\n        1. Scrape DrugBank for detailed mechanism of action\n        2. Search Google Scholar for highly-cited mechanistic studies\n        3. Find bioRxiv preprints on novel uses\n        4. Search Orphanet for target rare diseases\n        5. Analyze mechanistic overlap between approved indication and target rare disease\n        \n        For TOP 3 rare diseases:\n        1. Search GARD for pathophysiology\n        2. Find latest research on disease mechanisms\n        3. Identify molecular targets\n        \n        Deliverable: Detailed mechanism-based analysis explaining WHY repurposing could work\n        "

/-- Stage 3 task description template. -/
def stage3_description : String :=
  "\n        STAGE 3: MARKET VALIDATION (Target: 5-10 minutes)\n        \n        For top opportunities from Stage 2:\n        1. Scrape competitor pipelines (Pfizer, Novartis, Roche, etc.)\n        2. Assess market size for rare diseases\n        3. Analyze competitive landscape\n        4. Evaluate commercial feasibility\n        5. Assess orphan drug designation potential\n        \n        Deliverable: Commercial viability assessment with competitive positioning\n        "

/-- Stage 4 task description template. -/
def stage4_description : String :=
  "\n        STAGE 4: SYNTHESIS & STRATEGIC RECOMMENDATIONS (Target: 5 minutes)\n        \n        Integrate ALL findings from Stages 1-3 to create comprehensive report:\n        \n        STRUCTURE:\n        1. Executive Summary (3-5 key insights)\n        2. Top 3 Repurposing Opportunities (ranked by potential)\n           - Drug name & current use\n           - Target rare disease\n           - Mechanistic rationale (detailed)\n           - Clinical evidence\n           - Market potential\n           - Competitive landscape\n           - Risk assessment\n        3. Strategic Recommendations\n           - Next steps for clinical development\n           - Partnership opportunities\n           - Regulatory pathway\n           - Timeline estimates\n        4. Full Appendix\n           - All clinical trials found\n           - Complete literature citations\n           - Market data sources\n        \n        QUALITY STANDARDS:\n        - All claims must be evidence-based\n        - Cite specific NCT IDs, PMIDs, papers\n        - Explain mechanisms in detail\n        - Provide realistic market assessments\n        - Acknowledge limitations and risks\n        \n        Deliverable: Publication-ready research report (5000+ words)\n        "

/-! ### Crew kickoff outcome -/

/-- The shape of the object `crew.kickoff()` returns: the extraction code
checks `hasattr(result, 'raw')` first, then `hasattr(result, 'output')`,
then falls back to `str(result)`; each payload is already rendered by
`str`. -/
inductive CrewResult where
  | withRaw (raw : String)
  | withOutput (output : String)
  | plain (rendered : String)
deriving Repr

/-- The outcome of `crew.kickoff()`: a result object, or a raised
exception (modelled by its message). -/
structure KickoffWorld where
  outcome : Except String CrewResult

/-- `run_comprehensive_research_crew` (src/agents/master_agent.py): builds
the four stage tasks, the agent and task lists (dropping Stage 2 and the
deep-research agent when `skip_deep`), creates the sequential crew, runs
`crew.kickoff()` inside `try/except`, and extracts a string result.
Returns the crew it constructs together with the returned value. -/
def run_comprehensive_research_crew (user_query : String)
    (skip_deep : Bool := false) (w : KickoffWorld) :
    Crew × Except String String :=
  let stage1_task : Task :=
    { stage := .stage1
      description := stage1_description user_query
      agent := .masterAgent
      expected_output :=
        "List of 5-10 candidate drugs with initial evidence for rare disease potential"
      context := [] }
  let stage2_task : Task :=
    { stage := .stage2
      description := stage2_description
      agent := .deepResearchAgent
      expected_output :=
        "Mechanistic analysis showing molecular basis for repurposing opportunities"
      context := [.stage1] }
  let stage3_task : Task :=
    { stage := .stage3
      description := stage3_description
      agent := .marketAgent
      expected_output :=
        "Market opportunity analysis with competitive intelligence"
      context := if skip_deep then [.stage1] else [.stage1, .stage2] }
  let stage4_task : Task :=
    { stage := .stage4
      description := stage4_description
      agent := .masterAgent
      expected_output :=
        "Comprehensive strategic research report with detailed recommendations"
      context :=
        if skip_deep then [.stage1, .stage3] else [.stage1, .stage2, .stage3] }
  let agents_list : List AgentId :=
    [.masterAgent, .clinicalAgent, .drugAgent, .literatureAgent, .marketAgent] ++
      (if !skip_deep then [.deepResearchAgent] else [])
  let tasks_list : List Task :=
    [stage1_task] ++ (if !skip_deep then [stage2_task] else []) ++
      [stage3_task, stage4_task]
  let crew : Crew :=
    { agents := agents_list
      tasks := tasks_list
      process := .sequential
      verbose := true
      full_output := true }
  let result : Except String String :=
    pyTry
      (do
        let result ← w.outcome
        match result with
        | .withRaw raw => pure raw
        | .withOutput output => pure output
        | .plain rendered => pure rendered)
      (fun e =>
        .ok ("Error during research execution: " ++ e ++
          "\n\nPlease try a more specific query."))
  (crew, result)

/-! ### Shared scraping helpers -/

/-- Dictionary indexing `d[k]`, raising `KeyError` when the key is
absent. -/
def pyIndex (v : PyVal) (k : String) : Except String PyVal :=
  match v.lookup k with
  | Option.some x => .ok x
  | Option.none => .error ("KeyError: " ++ k)

/-- Modelled from `urllib.parse.quote_plus` as the URLs here use it:
spaces become plus signs (full percent-encoding does not affect any
claim). -/
def quote_plus (s : String) : String := s.replace " " "+"

/-- An HTML anchor element as the scrapers see it: its `href` attribute,
when present. -/
structure Anchor where
  href : Option String

/-! ### `RareDiseaseDatabase.scrape_orphanet` and its tool
(src/tools/database_scraping_tools.py) -/

/-- The parsed Orphanet search page: whether `raise_for_status` raises,
and `parent.get_text(strip=True)` of the first text node containing
"Prevalence", when such a node and its parent exist. -/
structure OrphanetPage where
  statusError : Option String
  prevalenceText : Option String

/-- Outcome of the single `requests.get` in `scrape_orphanet`. -/
structure OrphanetWorld where
  fetch : Except String OrphanetPage

/-- The Orphanet search URL template. -/
def orphanet_search_url (disease_name : String) : String :=
  "https://www.orpha.net/consor/cgi-bin/Disease_Search.php?lng=EN&data_id=&Disease_Disease_Search_diseaseGroup=" ++
    disease_name

/-- `RareDiseaseDatabase.scrape_orphanet`: one GET of the search page;
builds a disease-info dict whose `inheritance` and `age_of_onset` fields
are initialised to "Unknown" and never reassigned, with only
`prevalence` conditionally overwritten; any exception is caught and
turned into an error-keyed dict. -/
def scrape_orphanet (w : OrphanetWorld) (disease_name : String) :
    Except String PyVal × List Effect :=
  let search_url := orphanet_search_url disease_name
  let body : Except String PyVal := do
    let response ← w.fetch
    let _ ← raise_for_status response.statusError
    let prevalence :=
      match response.prevalenceText with
      | Option.some t => t
      | Option.none => "Unknown"
    pure (.dict [("name", .str disease_name),
                 ("prevalence", .str prevalence),
                 ("inheritance", .str "Unknown"),
                 ("age_of_onset", .str "Unknown"),
                 ("orphanet_url", .str search_url)])
  (pyTry body fun e =>
     .ok (.dict [("name", .str disease_name), ("error", .str e)]),
   [.httpGet search_url])

/-- The `search_orphanet_rare_disease` tool: formats the dict returned by
`scrape_orphanet` into a report string (or a "Could not find" message
when the dict is error-keyed). -/
def search_orphanet_rare_disease (w : OrphanetWorld) (disease_name : String) :
    Except String String := do
  let data ← (scrape_orphanet w disease_name).1
  match data.lookup "error" with
  | Option.some err =>
      pure ("Could not find " ++ disease_name ++ " in Orphanet: " ++ pyStr err)
  | Option.none => do
      let prevalence ← pyIndex data "prevalence"
      let inheritance ← pyIndex data "inheritance"
      let age_of_onset ← pyIndex data "age_of_onset"
      let orphanet_url ← pyIndex data "orphanet_url"
      pure ("Orphanet Data for " ++ disease_name ++ ":\n\n" ++
        "Prevalence: " ++ pyStr prevalence ++ "\n" ++
        "Inheritance: " ++ pyStr inheritance ++ "\n" ++
        "Age of Onset: " ++ pyStr age_of_onset ++ "\n" ++
        "Source: " ++ pyStr orphanet_url ++ "\n")

/-! ### `RareDiseaseDatabase.scrape_rare_diseases_info` (GARD) -/

/-- One entry of the GARD search API's JSON answer. -/
structure GardApiEntry where
  name : Option String
  gard_id : Option String
  synonyms : Option (List String)

/-- The GARD disease page: HTTP status and `soup.get_text()`. -/
structure GardPage where
  status : Nat
  pageText : String

/-- The GARD search API response: HTTP status and parsed JSON entries. -/
structure GardApiPage where
  status : Nat
  entries : List GardApiEntry

/-- Outcomes of the two possible GETs in `scrape_rare_diseases_info`
(the API is only consulted when the page GET returns 404; a `json()`
parse failure is folded into the API fetch's exception). -/
structure GardWorld where
  pageFetch : Except String GardPage
  apiFetch : Except String GardApiPage

/-- The GARD disease page URL template. -/
def gard_page_url (disease_name : String) : String :=
  "https://rarediseases.info.nih.gov/diseases/" ++
    ((disease_name.replace " " "-").toLower)

/-- The GARD search API URL template. -/
def gard_api_url (disease_name : String) : String :=
  "https://rarediseases.info.nih.gov/api/gard/search?q=" ++ disease_name

/-- The fall-through result of `scrape_rare_diseases_info`: the (original)
response's text, truncated to 1000 characters. -/
def gard_fallback (disease_name search_url : String) (response : GardPage) :
    PyVal :=
  .dict [("name", .str disease_name),
         ("content", .str (response.pageText.take 1000)),
         ("url", .str search_url)]

/-- `RareDiseaseDatabase.scrape_rare_diseases_info`: GET the GARD disease
page; on a 404, GET the search API and, when it answers 200 with a
nonempty list, return a dict built from the first entry (whose
`synonyms` value is a list); otherwise fall through to a text dict from
the already-fetched page; every exception branch (each inside the one
`try`) yields an error-keyed dict. -/
def scrape_rare_diseases_info (w : GardWorld) (disease_name : String) :
    Except String PyVal × List Effect :=
  let search_url := gard_page_url disease_name
  let errDict := fun (e : String) =>
    PyVal.dict [("name", .str disease_name), ("error", .str e)]
  match w.pageFetch with
  | .error e => (.ok (errDict e), [.httpGet search_url])
  | .ok response =>
    if response.status == 404 then
      let search_api := gard_api_url disease_name
      match w.apiFetch with
      | .error e => (.ok (errDict e), [.httpGet search_url, .httpGet search_api])
      | .ok api_response =>
        if api_response.status == 200 then
          match api_response.entries with
          | first_result :: _ =>
            (.ok (.dict [
               ("name", .str (first_result.name.getD disease_name)),
               ("gard_id", .str (first_result.gard_id.getD "N/A")),
               ("synonyms", .list ((first_result.synonyms.getD []).map PyVal.str)),
               ("url", .str ("https://rarediseases.info.nih.gov/diseases/" ++
                  first_result.gard_id.getD ""))]),
             [.httpGet search_url, .httpGet search_api])
          | [] =>
            (.ok (gard_fallback disease_name search_url response),
             [.httpGet search_url, .httpGet search_api])
        else
          (.ok (gard_fallback disease_name search_url response),
           [.httpGet search_url, .httpGet search_api])
    else
      (.ok (gard_fallback disease_name search_url response),
       [.httpGet search_url])

/-! ### `WebScraperAPI.scrape_clean_text` and `extract_webpage_content`
(src/tools/web_scraping_tools.py) -/

/-- Joint outcome of `trafilatura.fetch_url` and `trafilatura.extract`:
an exception, or the extracted text (`None` when nothing could be
extracted). -/
structure CleanTextWorld where
  extracted : Except String (Option String)

/-- `WebScraperAPI.scrape_clean_text`: fetch and extract; `text or
"Could not extract content"` (so an empty string also falls back); any
exception becomes an "Error: ..." string. -/
def scrape_clean_text (w : CleanTextWorld) (url : String) :
    Except String String × List Effect :=
  let body : Except String String := do
    let text ← w.extracted
    match text with
    | Option.some t => pure (if t == "" then "Could not extract content" else t)
    | Option.none => pure "Could not extract content"
  (pyTry body fun e => .ok ("Error: " ++ e), [.fetchUrl url])

/-- The `extract_webpage_content` tool: prefixes the clean text, keeping
at most its first 3000 characters. -/
def extract_webpage_content (w : CleanTextWorld) (url : String) :
    Except String String := do
  let content ← (scrape_clean_text w url).1
  pure ("Content from " ++ url ++ ":\n\n" ++ content.take 3000)

/-! ### `WebScraperAPI.scrape_google_scholar` -/

/-- The `bib` sub-dictionary of a filled scholarly publication. -/
structure ScholarBib where
  title : Option String
  author : Option (List String)
  pub_year : Option String
  venue : Option String
  abstract : Option String

/-- A publication after `scholarly.fill`. -/
structure ScholarFilled where
  bib : ScholarBib
  num_citations : Option Int
  pub_url : Option String

/-- A publication yielded by the scholarly search iterator, with the
outcome of `scholarly.fill` on it. -/
structure ScholarPub where
  fill : Except String ScholarFilled

/-- Outcome of `scholarly.search_pubs` and of iterating its generator. -/
structure ScholarWorld where
  search : Except String (List ScholarPub)

/-- The result dict built for one successfully filled publication. Note
the `authors` value is the `bib['author']` list (default `[]`) and the
abstract is truncated to 500 characters. -/
def scholar_pub_dict (filled : ScholarFilled) : PyVal :=
  .dict [("title", .str (filled.bib.title.getD "N/A")),
         ("authors", .list ((filled.bib.author.getD []).map PyVal.str)),
         ("year", .str (filled.bib.pub_year.getD "N/A")),
         ("venue", .str (filled.bib.venue.getD "N/A")),
         ("citations", .int (filled.num_citations.getD 0)),
         ("url", .str (filled.pub_url.getD "N/A")),
         ("abstract", .str ((filled.bib.abstract.getD "N/A").take 500))]

/-- The per-publication loop of `scrape_google_scholar`: fill each
publication inside an inner `try`; on success append the result dict and
then `time.sleep(2)` ("Rate limiting"); on an inner exception log and
continue (no sleep). Returns the collected dicts and the effect trace. -/
def scholar_loop : List ScholarPub → List PyVal × List Effect
  | [] => ([], [])
  | pub :: rest =>
    let (results, trace) := scholar_loop rest
    match pub.fill with
    | .error _ => (results, .scholarFill :: trace)
    | .ok filled =>
      (scholar_pub_dict filled :: results, .scholarFill :: .sleep 2 :: trace)

/-- `WebScraperAPI.scrape_google_scholar`: search, then fill the first
`max_results` publications with a 2-second sleep after each successful
fill; an exception from the search or the iteration is caught and the
function returns `[]`. -/
def scrape_google_scholar (w : ScholarWorld) (query : String)
    (max_results : Nat := 10) : Except String PyVal × List Effect :=
  match w.search with
  | .error _ => (.ok (.list []), [.scholarSearch query])
  | .ok pubs =>
    let (results, trace) := scholar_loop (pubs.take max_results)
    (.ok (.list results), .scholarSearch query :: trace)

/-! ### `WebScraperAPI.scrape_drugbank_info` -/

/-- The parsed DrugBank drug page: whether `raise_for_status` raises, and
the `dd` sibling text of the "Mechanism of action" and
"Pharmacodynamics" `dt` sections when found. -/
structure DrugbankPage where
  statusError : Option String
  mechanismText : Option String
  pharmacodynamicsText : Option String

/-- Outcome of the single `requests.get` in `scrape_drugbank_info`. -/
structure DrugbankWorld where
  fetch : Except String DrugbankPage

/-- The DrugBank URL template. -/
def drugbank_url (drug_name : String) : String :=
  "https://go.drugbank.com/drugs/" ++ (drug_name.toLower.replace " " "_")

/-- `WebScraperAPI.scrape_drugbank_info`: one GET; builds a data dict
whose `mechanism` and `pharmacodynamics` fields are the section texts
truncated to 500 characters (empty when the section is missing); any
exception is caught and the function returns `None`. -/
def scrape_drugbank_info (w : DrugbankWorld) (drug_name : String) :
    Except String PyVal × List Effect :=
  let url := drugbank_url drug_name
  let body : Except String PyVal := do
    let response ← w.fetch
    let _ ← raise_for_status response.statusError
    let mechanism :=
      match response.mechanismText with
      | Option.some t => t.take 500
      | Option.none => ""
    let pharmacodynamics :=
      match response.pharmacodynamicsText with
      | Option.some t => t.take 500
      | Option.none => ""
    pure (.dict [("drug_name", .str drug_name),
                 ("drugbank_url", .str url),
                 ("mechanism", .str mechanism),
                 ("pharmacodynamics", .str pharmacodynamics),
                 ("indication", .str ""),
                 ("pharmacokinetics", .str "")])
  (pyTry body fun _ => .ok PyVal.none, [.httpGet url])

/-! ### `WebScraperAPI.scrape_bioRxiv_preprints` -/

/-- One `highwire-article-citation` div: the optional sub-elements the
scraper reads, and `article.find('a')`. -/
structure BiorxivArticle where
  title : Option String
  authors : Option String
  date : Option String
  doi : Option String
  anchor : Option Anchor

/-- The parsed bioRxiv search page. The article list already reflects
`find_all(..., limit=max_results)`. -/
structure BiorxivPage where
  statusError : Option String
  articles : List BiorxivArticle

/-- Outcome of the single `requests.get` in `scrape_bioRxiv_preprints`. -/
structure BiorxivWorld where
  fetch : Except String BiorxivPage

/-- The `url` field computed for one bioRxiv article:
`article.find('a')['href']` raises `KeyError` when the anchor exists but
has no `href`; that exception escapes to the function's outer handler. -/
def biorxiv_article_url (article : BiorxivArticle) : Except String String :=
  match article.anchor with
  | Option.some anchor =>
    match anchor.href with
    | Option.some href => .ok ("https://www.biorxiv.org" ++ href)
    | Option.none => .error "KeyError: href"
  | Option.none => .ok "N/A"

/-- The result dict for one bioRxiv article. -/
def biorxiv_article_dict (article : BiorxivArticle) : Except String PyVal :=
  match biorxiv_article_url article with
  | .error e => .error e
  | .ok url =>
    .ok (.dict [("title", .str (article.title.getD "N/A")),
                ("authors", .str (article.authors.getD "N/A")),
                ("date", .str (article.date.getD "N/A")),
                ("doi", .str (article.doi.getD "N/A")),
                ("url", .str url)])

/-- The article loop of `scrape_bioRxiv_preprints` (not guarded by an
inner `try`, so a `KeyError` aborts the whole loop). -/
def biorxiv_loop : List BiorxivArticle → Except String (List PyVal)
  | [] => .ok []
  | article :: rest =>
    match biorxiv_article_dict article with
    | .error e => .error e
    | .ok d =>
      match biorxiv_loop rest with
      | .error e => .error e
      | .ok ds => .ok (d :: ds)

/-- The bioRxiv search URL template. -/
def biorxiv_search_url (query : String) : String :=
  "https://www.biorxiv.org/search/" ++ quote_plus query

/-- `WebScraperAPI.scrape_bioRxiv_preprints`: one GET, then build a dict
per article; any exception is caught and the function returns `[]`. -/
def scrape_bioRxiv_preprints (w : BiorxivWorld) (query : String)
    (max_results : Nat := 5) : Except String PyVal × List Effect :=
  let search_url := biorxiv_search_url query
  let body : Except String PyVal :=
    match w.fetch with
    | .error e => .error e
    | .ok response =>
      match raise_for_status response.statusError with
      | .error e => .error e
      | .ok _ =>
        match biorxiv_loop (response.articles.take max_results) with
        | .error e => .error e
        | .ok results => .ok (.list results)
  (pyTry body fun _ => .ok (.list []), [.httpGet search_url])

/-! ### `WebScraperAPI.scrape_company_pipeline` -/

/-- The parsed DuckDuckGo search page: `soup.find('a',
class_='result__url')`, when present. -/
structure CompanyPage where
  firstResult : Option Anchor

/-- Outcomes of the two possible GETs in `scrape_company_pipeline` (the
pipeline-page GET plus `trafilatura.extract`, which may yield no
content, folded together). -/
structure CompanyWorld where
  searchFetch : Except String CompanyPage
  pipelineFetch : Except String (Option String)

/-- The DuckDuckGo search URL for a company's pipeline. -/
def company_search_url (company_name : String) : String :=
  "https://html.duckduckgo.com/html/?q=" ++
    quote_plus (company_name ++ " pharmaceutical pipeline")

/-- `WebScraperAPI.scrape_company_pipeline`: GET a DuckDuckGo search
page, follow the first result's `href` (Python truthiness: an empty
`href` falls through to the "No pipeline page found" dict), GET the
pipeline page and keep at most 2000 characters of extracted content;
every exception branch of the one `try` yields an error-keyed dict. -/
def scrape_company_pipeline (w : CompanyWorld) (company_name : String) :
    Except String PyVal × List Effect :=
  let search_url := company_search_url company_name
  match w.searchFetch with
  | .error e =>
    (.ok (.dict [("company", .str company_name), ("error", .str e)]),
     [.httpGet search_url])
  | .ok soupPage =>
    match soupPage.firstResult with
    | Option.none =>
      (.ok (.dict [("company", .str company_name),
                   ("error", .str "No pipeline page found")]),
       [.httpGet search_url])
    | Option.some first_result =>
      let pipeline_url := first_result.href.getD ""
      if pipeline_url ≠ "" then
        match w.pipelineFetch with
        | .error e =>
          (.ok (.dict [("company", .str company_name), ("error", .str e)]),
           [.httpGet search_url, .httpGet pipeline_url])
        | .ok content =>
          (.ok (.dict [("company", .str company_name),
                       ("url", .str pipeline_url),
                       ("content", .str (match content with
                          | Option.some c => c.take 2000
                          | Option.none => "No content extracted"))]),
           [.httpGet search_url, .httpGet pipeline_url])
      else
        (.ok (.dict [("company", .str company_name),
                     ("error", .str "No pipeline page found")]),
         [.httpGet search_url])

/-! ### Output-shape predicates used by the claims -/

/-- Checks the shape of a scraper's returned value; an uncaught exception
(which never occurs) passes vacuously. -/
def resultShape (p : PyVal → Bool) : Except String PyVal → Bool
  | .ok v => p v
  | .error _ => true

/-- A nearly flat dictionary: every value is a scalar, except that the
listed keys may carry a list of strings. -/
def PyVal.isNearlyFlatDict (allowed : List String) : PyVal → Bool
  | .dict kvs => kvs.all fun kv =>
      kv.2.isScalar || (allowed.contains kv.1 && kv.2.isStrList)
  | _ => false

/-- A list of nearly flat dictionaries. -/
def PyVal.isListOfNearlyFlat (allowed : List String) : PyVal → Bool
  | .list xs => xs.all fun v => v.isNearlyFlatDict allowed
  | _ => false

/-- A flat dictionary or `None` (the DrugBank failure value). -/
def PyVal.isFlatDictOrNone : PyVal → Bool
  | PyVal.none => true
  | v => v.isFlatDict

/-- The failure shapes C7 allows: an error string, or a dictionary
carrying an "error" key. -/
def isErrorStringOrErrorDict : PyVal → Bool
  | .str _ => true
  | .dict kvs => kvs.any fun kv => kv.1 == "error"
  | _ => false

/-! ### Helper lemmas -/

/-- Python slicing `s[:n]` keeps at most `n` characters. -/
theorem length_take_le (s : String) (n : Nat) : (s.take n).length ≤ n := by
  calc (s.take n).length = (s.take n).data.length := (String.length_data _).symm
    _ = (s.data.take n).length := by rw [String.data_take]
    _ ≤ n := by simp [List.length_take]

/-- A `try/except` whose handler only returns a value never lets an
exception escape. -/
theorem pyTry_ok_handler_isOk (body : Except String α) (f : String → α) :
    (pyTry body fun e => Except.ok (f e)).isOk = true := by
  cases body <;> rfl

/-- Mapping `PyVal.str` over a list of strings yields a list-of-strings
value. -/
theorem isStrList_map_str (l : List String) :
    (PyVal.list (l.map PyVal.str)).isStrList = true := by
  induction l with
  | nil => rfl
  | cons x xs ih => simp [PyVal.isStrList, List.all_cons]

/-! ### Claims about the pipeline (C1–C4, C8) -/

/-- C1 counterexample: with `skip_deep = true` (which `src/app.py` passes
by default, the "fast mode" checkbox being checked), the crew built by
`run_comprehensive_research_crew` contains three tasks — Stage 2 is
missing — so the crew does not always contain the four stages. -/
theorem claim_C1_counterexample :
    ¬ ((run_comprehensive_research_crew
          "Find respiratory drugs with potential for lymphangioleiomyomatosis (LAM)"
          true ⟨.ok (.plain "report")⟩).1.tasks.map Task.stage =
        [StageId.stage1, StageId.stage2, StageId.stage3, StageId.stage4]) := by
  decide

/-- C1 (amended): when `skip_deep` is false, the crew contains exactly
the four stage tasks in order Stage 1, Stage 2, Stage 3, Stage 4; when
`skip_deep` is true the Stage 2 task is omitted and the crew contains
Stage 1, Stage 3, Stage 4 in that order. -/
theorem claim_C1 (user_query : String) (w : KickoffWorld) :
    ((run_comprehensive_research_crew user_query false w).1.tasks.map Task.stage =
      [StageId.stage1, StageId.stage2, StageId.stage3, StageId.stage4]) ∧
    ((run_comprehensive_research_crew user_query true w).1.tasks.map Task.stage =
      [StageId.stage1, StageId.stage3, StageId.stage4]) :=
  ⟨rfl, rfl⟩

/-- C2: with `skip_deep = true`, the crew omits the Stage 2 task and the
deep-research agent entirely; Stage 3's context is `[stage1]`, Stage 4's
is `[stage1, stage3]`, and every context entry names a stage whose task
is in the crew. -/
theorem claim_C2 (user_query : String) (w : KickoffWorld) :
    ((run_comprehensive_research_crew user_query true w).1.tasks.map Task.stage =
      [StageId.stage1, StageId.stage3, StageId.stage4]) ∧
    ((run_comprehensive_research_crew user_query true w).1.agents =
      [AgentId.masterAgent, AgentId.clinicalAgent, AgentId.drugAgent,
       AgentId.literatureAgent, AgentId.marketAgent]) ∧
    (AgentId.deepResearchAgent ∉
      (run_comprehensive_research_crew user_query true w).1.agents) ∧
    ((run_comprehensive_research_crew user_query true w).1.tasks.map Task.context =
      [[], [StageId.stage1], [StageId.stage1, StageId.stage3]]) ∧
    (∀ ctx ∈ (run_comprehensive_research_crew user_query true w).1.tasks.map
        Task.context,
      ∀ s ∈ ctx,
        s ∈ (run_comprehensive_research_crew user_query true w).1.tasks.map
          Task.stage) := by
  refine ⟨rfl, rfl, ?_, rfl, ?_⟩
  · rw [show (run_comprehensive_research_crew user_query true w).1.agents =
        [AgentId.masterAgent, AgentId.clinicalAgent, AgentId.drugAgent,
         AgentId.literatureAgent, AgentId.marketAgent] from rfl]
    decide
  · rw [show (run_comprehensive_research_crew user_query true w).1.tasks.map
          Task.context =
        [[], [StageId.stage1], [StageId.stage1, StageId.stage3]] from rfl,
      show (run_comprehensive_research_crew user_query true w).1.tasks.map
          Task.stage =
        [StageId.stage1, StageId.stage3, StageId.stage4] from rfl]
    decide

/-- C3: with the deep stage included (`skip_deep = false`), the context
wiring is Stage 2 ← [Stage 1], Stage 3 ← [Stage 1, Stage 2],
Stage 4 ← [Stage 1, Stage 2, Stage 3]. -/
theorem claim_C3 (user_query : String) (w : KickoffWorld) :
    ((run_comprehensive_research_crew user_query false w).1.tasks.map
        fun t => (t.stage, t.context)) =
      [(StageId.stage1, []),
       (StageId.stage2, [StageId.stage1]),
       (StageId.stage3, [StageId.stage1, StageId.stage2]),
       (StageId.stage4, [StageId.stage1, StageId.stage2, StageId.stage3])] :=
  rfl

/-- C4: for every query, skip flag and kickoff outcome, the crew is
created with `Process.sequential`, so the framework executes its task
list one task at a time in list order. -/
theorem claim_C4 (user_query : String) (skip_deep : Bool) (w : KickoffWorld) :
    (run_comprehensive_research_crew user_query skip_deep w).1.process =
      ProcessKind.sequential :=
  rfl

/-- C8: `run_comprehensive_research_crew` never raises: for every kickoff
outcome it returns a string — the `raw` attribute when present, else the
`output` attribute, else `str(result)`, and on an exception the
"Error during research execution" message. -/
theorem claim_C8 (user_query : String) (skip_deep : Bool) (w : KickoffWorld) :
    (run_comprehensive_research_crew user_query skip_deep w).2 =
      .ok (match w.outcome with
        | .error e => "Error during research execution: " ++ e ++
            "\n\nPlease try a more specific query."
        | .ok (.withRaw raw) => raw
        | .ok (.withOutput output) => output
        | .ok (.plain rendered) => rendered) := by
  rcases w with ⟨(e | r)⟩
  · rfl
  · rcases r <;> rfl

/-! ### Claim about the Orphanet scraper (C9) -/

/-- C9: every non-error result of `search_orphanet_rare_disease` (fetch
succeeded, no HTTP error status) reports Inheritance and Age of Onset as
"Unknown"; only the prevalence line varies with the page content. -/
theorem claim_C9 (disease_name : String) (prevalenceText : Option String) :
    search_orphanet_rare_disease ⟨.ok ⟨Option.none, prevalenceText⟩⟩
        disease_name =
      .ok ("Orphanet Data for " ++ disease_name ++ ":\n\n" ++
        "Prevalence: " ++ prevalenceText.getD "Unknown" ++ "\n" ++
        "Inheritance: " ++ "Unknown" ++ "\n" ++
        "Age of Onset: " ++ "Unknown" ++ "\n" ++
        "Source: " ++ orphanet_search_url disease_name ++ "\n") := by
  rcases prevalenceText with _ | t <;> rfl

/-! ### Claims about retries and rate limiting (C5) -/

/-- C5 counterexample: `scrape_google_scholar` does delay between
requests — after one successfully filled publication its effect trace
contains a 2-second sleep (the source's "Rate limiting" comment). -/
theorem claim_C5_counterexample :
    Effect.sleep 2 ∈
      (scrape_google_scholar
        ⟨.ok [⟨.ok ⟨⟨Option.none, Option.none, Option.none, Option.none,
          Option.none⟩, Option.none, Option.none⟩⟩]⟩
        "metformin rare disease repurposing" 10).2 := by
  decide

/-- C5 (amended): the scrapers perform no retry, backoff or caching —
when a scraper's HTTP fetch raises, its trace is that single fetch and
an in-band error result is returned with no re-attempt; however,
`scrape_google_scholar` does delay between requests, sleeping 2 seconds
after each successfully filled publication as crude rate limiting. -/
theorem claim_C5 :
    (∀ disease_name e,
      scrape_orphanet ⟨.error e⟩ disease_name =
        (.ok (.dict [("name", .str disease_name), ("error", .str e)]),
         [.httpGet (orphanet_search_url disease_name)])) ∧
    (∀ disease_name e apiFetch,
      scrape_rare_diseases_info ⟨.error e, apiFetch⟩ disease_name =
        (.ok (.dict [("name", .str disease_name), ("error", .str e)]),
         [.httpGet (gard_page_url disease_name)])) ∧
    (∀ drug_name e,
      scrape_drugbank_info ⟨.error e⟩ drug_name =
        (.ok PyVal.none, [.httpGet (drugbank_url drug_name)])) ∧
    (∀ query e max_results,
      scrape_bioRxiv_preprints ⟨.error e⟩ query max_results =
        (.ok (.list []), [.httpGet (biorxiv_search_url query)])) ∧
    (∀ company_name e pipelineFetch,
      scrape_company_pipeline ⟨.error e, pipelineFetch⟩ company_name =
        (.ok (.dict [("company", .str company_name), ("error", .str e)]),
         [.httpGet (company_search_url company_name)])) ∧
    (∀ url e,
      scrape_clean_text ⟨.error e⟩ url =
        (.ok ("Error: " ++ e), [.fetchUrl url])) ∧
    (∀ query e max_results,
      scrape_google_scholar ⟨.error e⟩ query max_results =
        (.ok (.list []), [.scholarSearch query])) ∧
    (∀ query filled,
      (scrape_google_scholar ⟨.ok [⟨.ok filled⟩]⟩ query 10).2 =
        [.scholarSearch query, .scholarFill, .sleep 2]) :=
  ⟨fun _ _ => rfl, fun _ _ _ => rfl, fun _ _ => rfl, fun _ _ _ => rfl,
   fun _ _ _ => rfl, fun _ _ => rfl, fun _ _ _ => rfl, fun _ _ => rfl⟩

/-! ### Claims about output shapes (C6) -/

/-- Each result dict collected by the Google Scholar loop is nearly flat:
all values scalar except the `authors` list of strings. -/
theorem scholar_loop_nearlyFlat (pubs : List ScholarPub) :
    ((scholar_loop pubs).1.all fun v =>
      v.isNearlyFlatDict ["authors"]) = true := by
  induction pubs with
  | nil => rfl
  | cons pub rest ih =>
    dsimp only [scholar_loop]
    rcases pub with ⟨(e | filled)⟩
    · exact ih
    · simp only [List.all_cons, ih, Bool.and_true]
      simp [scholar_pub_dict, PyVal.isNearlyFlatDict, PyVal.isScalar,
        List.all_cons, isStrList_map_str]

/-- Each article dict built by the bioRxiv loop is flat. -/
theorem biorxiv_article_dict_flat (article : BiorxivArticle) (d : PyVal)
    (h : biorxiv_article_dict article = .ok d) : d.isFlatDict = true := by
  rcases article with ⟨t, au, dt, doi, an⟩
  rcases an with _ | ⟨href⟩
  · dsimp only [biorxiv_article_dict, biorxiv_article_url] at h
    injection h with h
    subst h
    rfl
  · rcases href with _ | hr
    · dsimp only [biorxiv_article_dict, biorxiv_article_url] at h
      exact Except.noConfusion h
    · dsimp only [biorxiv_article_dict, biorxiv_article_url] at h
      injection h with h
      subst h
      rfl

/-- Every successful bioRxiv loop result is a list of flat dicts. -/
theorem biorxiv_loop_flat (arts : List BiorxivArticle) (ds : List PyVal)
    (h : biorxiv_loop arts = .ok ds) :
    (ds.all PyVal.isFlatDict) = true := by
  induction arts generalizing ds with
  | nil =>
    dsimp only [biorxiv_loop] at h
    injection h with h
    subst h
    rfl
  | cons a rest ih =>
    dsimp only [biorxiv_loop] at h
    rcases ha : biorxiv_article_dict a with e | d
    · rw [ha] at h
      exact Except.noConfusion h
    · rw [ha] at h
      rcases hr : biorxiv_loop rest with e' | ds'
      · rw [hr] at h
        exact Except.noConfusion h
      · rw [hr] at h
        injection h with h
        subst h
        simp only [List.all_cons, ih ds' hr, Bool.and_true, Bool.true_and,
          biorxiv_article_dict_flat a d ha]

/-- C6 counterexample: a successfully filled Google Scholar publication
yields a result dict whose `authors` value is a list, not a scalar, so
the output is not a list of flat key/value dictionaries. -/
theorem claim_C6_counterexample :
    ((scrape_google_scholar
        ⟨.ok [⟨.ok ⟨⟨Option.none, Option.none, Option.none, Option.none,
          Option.none⟩, Option.none, Option.none⟩⟩]⟩
        "sirolimus lymphangioleiomyomatosis" 10).1 =
      .ok (.list [.dict [("title", .str "N/A"), ("authors", .list []),
        ("year", .str "N/A"), ("venue", .str "N/A"), ("citations", .int 0),
        ("url", .str "N/A"),
        ("abstract", .str (("N/A" : String).take 500))]])) ∧
    PyVal.isFlatOutput
      (.list [.dict [("title", .str "N/A"), ("authors", .list []),
        ("year", .str "N/A"), ("venue", .str "N/A"), ("citations", .int 0),
        ("url", .str "N/A"),
        ("abstract", .str (("N/A" : String).take 500))]]) = false :=
  ⟨rfl, rfl⟩

/-- C6 (amended): every scraper that returns dictionaries returns flat
key/value dictionaries (or a list of them) whose values are scalar
strings or numbers, with exactly two exceptions: the Google Scholar
`authors` value and the GARD `synonyms` value are lists of strings (and
DrugBank's failure value is `None`, not a dictionary). -/
theorem claim_C6 :
    (∀ w disease_name, resultShape PyVal.isFlatDict
        ((scrape_orphanet w disease_name).1) = true) ∧
    (∀ w disease_name, resultShape (PyVal.isNearlyFlatDict ["synonyms"])
        ((scrape_rare_diseases_info w disease_name).1) = true) ∧
    (∀ w drug_name, resultShape PyVal.isFlatDictOrNone
        ((scrape_drugbank_info w drug_name).1) = true) ∧
    (∀ w query max_results, resultShape (PyVal.isListOfNearlyFlat ["authors"])
        ((scrape_google_scholar w query max_results).1) = true) ∧
    (∀ w query max_results, resultShape PyVal.isFlatOutput
        ((scrape_bioRxiv_preprints w query max_results).1) = true) ∧
    (∀ w company_name, resultShape PyVal.isFlatDict
        ((scrape_company_pipeline w company_name).1) = true) := by
  refine ⟨?_, ?_, ?_, ?_, ?_, ?_⟩
  · rintro ⟨(e | ⟨st, prev⟩)⟩ d
    · rfl
    · rcases st with _ | s
      · rcases prev with _ | t <;> rfl
      · rfl
  · rintro ⟨pf, af⟩ d
    rcases pf with e | ⟨status, text⟩
    · rfl
    · dsimp only [scrape_rare_diseases_info]
      split
      · rcases af with e | ⟨astatus, entries⟩
        · rfl
        · dsimp only
          split
          · rcases entries with _ | ⟨first, rest⟩
            · rfl
            · simp [resultShape, PyVal.isNearlyFlatDict, PyVal.isScalar,
                List.all_cons, isStrList_map_str]
          · rfl
      · rfl
  · rintro ⟨(e | ⟨st, mech, pharma⟩)⟩ d
    · rfl
    · rcases st with _ | s
      · rcases mech with _ | m <;> rcases pharma with _ | p <;> rfl
      · rfl
  · rintro ⟨(e | pubs)⟩ q n
    · rfl
    · simpa [resultShape, scrape_google_scholar, PyVal.isListOfNearlyFlat] using
        scholar_loop_nearlyFlat (pubs.take n)
  · rintro ⟨(e | ⟨st, arts⟩)⟩ q n
    · rfl
    · rcases st with _ | s
      · dsimp only [scrape_bioRxiv_preprints, raise_for_status]
        rcases h : biorxiv_loop (arts.take n) with e' | ds
        · rfl
        · exact biorxiv_loop_flat _ _ h
      · rfl
  · rintro ⟨sf, pf⟩ c
    rcases sf with e | ⟨fr⟩
    · rfl
    · rcases fr with _ | ⟨href⟩
      · rfl
      · dsimp only [scrape_company_pipeline]
        split
        · rcases pf with e | (_ | t) <;> rfl
        · rfl

/-! ### Claims about error handling (C7) -/

/-- C7 counterexample: when its fetch raises, `scrape_drugbank_info`
catches the exception but returns `None` — neither an error string nor
an error-keyed dictionary. -/
theorem claim_C7_counterexample :
    ((scrape_drugbank_info ⟨.error "Connection timed out"⟩ "aspirin").1 =
      .ok PyVal.none) ∧
    isErrorStringOrErrorDict PyVal.none = false :=
  ⟨rfl, rfl⟩

/-- C7 (amended): every scraper catches exceptions at its own call site
and never propagates one to its caller; the in-band failure value is an
error-keyed dictionary (Orphanet, GARD, company pipeline), an error
string (clean text), `None` (DrugBank), or an empty list (Google
Scholar, bioRxiv). -/
theorem claim_C7 :
    (∀ w disease_name, ((scrape_orphanet w disease_name).1).isOk = true) ∧
    (∀ w disease_name,
      ((scrape_rare_diseases_info w disease_name).1).isOk = true) ∧
    (∀ w drug_name, ((scrape_drugbank_info w drug_name).1).isOk = true) ∧
    (∀ w query max_results,
      ((scrape_google_scholar w query max_results).1).isOk = true) ∧
    (∀ w query max_results,
      ((scrape_bioRxiv_preprints w query max_results).1).isOk = true) ∧
    (∀ w company_name,
      ((scrape_company_pipeline w company_name).1).isOk = true) ∧
    (∀ w url, ((scrape_clean_text w url).1).isOk = true) ∧
    (∀ disease_name e, (scrape_orphanet ⟨.error e⟩ disease_name).1 =
      .ok (.dict [("name", .str disease_name), ("error", .str e)])) ∧
    (∀ disease_name e apiFetch,
      (scrape_rare_diseases_info ⟨.error e, apiFetch⟩ disease_name).1 =
        .ok (.dict [("name", .str disease_name), ("error", .str e)])) ∧
    (∀ drug_name e,
      (scrape_drugbank_info ⟨.error e⟩ drug_name).1 = .ok PyVal.none) ∧
    (∀ query e max_results,
      (scrape_google_scholar ⟨.error e⟩ query max_results).1 =
        .ok (.list [])) ∧
    (∀ query e max_results,
      (scrape_bioRxiv_preprints ⟨.error e⟩ query max_results).1 =
        .ok (.list [])) ∧
    (∀ company_name e pipelineFetch,
      (scrape_company_pipeline ⟨.error e, pipelineFetch⟩ company_name).1 =
        .ok (.dict [("company", .str company_name), ("error", .str e)])) ∧
    (∀ url e,
      (scrape_clean_text ⟨.error e⟩ url).1 = .ok ("Error: " ++ e)) := by
  refine ⟨?_, ?_, ?_, ?_, ?_, ?_, ?_,
    fun _ _ => rfl, fun _ _ _ => rfl, fun _ _ => rfl, fun _ _ _ => rfl,
    fun _ _ _ => rfl, fun _ _ _ => rfl, fun _ _ => rfl⟩
  · rintro ⟨fetch⟩ d
    exact pyTry_ok_handler_isOk _ _
  · rintro ⟨pf, af⟩ d
    rcases pf with e | ⟨status, text⟩
    · rfl
    · dsimp only [scrape_rare_diseases_info]
      split
      · rcases af with e | ⟨astatus, entries⟩
        · rfl
        · dsimp only
          split
          · rcases entries with _ | ⟨first, rest⟩ <;> rfl
          · rfl
      · rfl
  · rintro ⟨fetch⟩ d
    exact pyTry_ok_handler_isOk _ _
  · rintro ⟨(e | pubs)⟩ q n <;> rfl
  · rintro ⟨fetch⟩ q n
    exact pyTry_ok_handler_isOk _ _
  · rintro ⟨sf, pf⟩ c
    rcases sf with e | ⟨fr⟩
    · rfl
    · rcases fr with _ | ⟨href⟩
      · rfl
      · dsimp only [scrape_company_pipeline]
        split
        · rcases pf with e | (_ | t) <;> rfl
        · rfl
  · rintro ⟨extracted⟩ u
    exact pyTry_ok_handler_isOk _ _

/-! ### Claim about truncation limits (C10) -/

/-- C10: the fixed truncation limits hold — `extract_webpage_content`
includes at most 3000 characters of page content, the DrugBank
`mechanism` and `pharmacodynamics` fields are at most 500 characters
each, the company-pipeline `content` field is at most 2000 characters,
and a Google Scholar result's `abstract` is at most 500 characters. -/
theorem claim_C10 (wc : CleanTextWorld) (url : String) (drug_name : String)
    (mechanismText pharmacodynamicsText : Option String)
    (company_name pipeline_href pipeline_content : String)
    (filled : ScholarFilled) (h : pipeline_href ≠ "") :
    (∃ c, extract_webpage_content wc url =
        .ok ("Content from " ++ url ++ ":\n\n" ++ c) ∧ c.length ≤ 3000) ∧
    (∃ m p, (scrape_drugbank_info
          ⟨.ok ⟨Option.none, mechanismText, pharmacodynamicsText⟩⟩
          drug_name).1 =
        .ok (.dict [("drug_name", .str drug_name),
          ("drugbank_url", .str (drugbank_url drug_name)),
          ("mechanism", .str m), ("pharmacodynamics", .str p),
          ("indication", .str ""), ("pharmacokinetics", .str "")]) ∧
        m.length ≤ 500 ∧ p.length ≤ 500) ∧
    (∃ c, (scrape_company_pipeline
          ⟨.ok ⟨Option.some ⟨Option.some pipeline_href⟩⟩,
           .ok (Option.some pipeline_content)⟩ company_name).1 =
        .ok (.dict [("company", .str company_name),
          ("url", .str pipeline_href), ("content", .str c)]) ∧
        c.length ≤ 2000) ∧
    (∃ a, scholar_pub_dict filled =
        .dict [("title", .str (filled.bib.title.getD "N/A")),
          ("authors", .list ((filled.bib.author.getD []).map PyVal.str)),
          ("year", .str (filled.bib.pub_year.getD "N/A")),
          ("venue", .str (filled.bib.venue.getD "N/A")),
          ("citations", .int (filled.num_citations.getD 0)),
          ("url", .str (filled.pub_url.getD "N/A")),
          ("abstract", .str a)] ∧ a.length ≤ 500) := by
  refine ⟨?_, ?_, ?_, ?_⟩
  · rcases wc with ⟨(e | (_ | t))⟩
    · exact ⟨_, rfl, length_take_le _ _⟩
    · exact ⟨_, rfl, length_take_le _ _⟩
    · exact ⟨_, rfl, length_take_le _ _⟩
  · rcases mechanismText with _ | m <;> rcases pharmacodynamicsText with _ | p
    · exact ⟨"", "", rfl, by decide, by decide⟩
    · exact ⟨"", _, rfl, by decide, length_take_le _ _⟩
    · exact ⟨_, "", rfl, length_take_le _ _, by decide⟩
    · exact ⟨_, _, rfl, length_take_le _ _, length_take_le _ _⟩
  · dsimp only [scrape_company_pipeline]
    simp only [Option.getD_some]
    rw [if_pos h]
    exact ⟨_, rfl, length_take_le _ _⟩
  · exact ⟨_, rfl, length_take_le _ _⟩

/-- C10 witness: the truncation bounds at a concrete world and inputs. -/
theorem claim_C10_witness :
    (∃ c, extract_webpage_content ⟨.ok (Option.some "PAGE TEXT")⟩
        "https://example.test" =
        .ok ("Content from " ++ "https://example.test" ++ ":\n\n" ++ c) ∧
        c.length ≤ 3000) ∧
    (∃ m p, (scrape_drugbank_info
          ⟨.ok ⟨Option.none, Option.some "MECHANISM", Option.some "PD"⟩⟩
          "aspirin").1 =
        .ok (.dict [("drug_name", .str "aspirin"),
          ("drugbank_url", .str (drugbank_url "aspirin")),
          ("mechanism", .str m), ("pharmacodynamics", .str p),
          ("indication", .str ""), ("pharmacokinetics", .str "")]) ∧
        m.length ≤ 500 ∧ p.length ≤ 500) ∧
    (∃ c, (scrape_company_pipeline
          ⟨.ok ⟨Option.some ⟨Option.some "https://pipeline.test"⟩⟩,
           .ok (Option.some "PIPELINE CONTENT")⟩ "Pfizer").1 =
        .ok (.dict [("company", .str "Pfizer"),
          ("url", .str "https://pipeline.test"), ("content", .str c)]) ∧
        c.length ≤ 2000) ∧
    (∃ a, scholar_pub_dict
        ⟨⟨Option.none, Option.none, Option.none, Option.none, Option.none⟩,
          Option.none, Option.none⟩ =
        .dict [("title", .str "N/A"), ("authors", .list []),
          ("year", .str "N/A"), ("venue", .str "N/A"), ("citations", .int 0),
          ("url", .str "N/A"), ("abstract", .str a)] ∧ a.length ≤ 500) :=
  claim_C10 ⟨.ok (Option.some "PAGE TEXT")⟩ "https://example.test" "aspirin"
    (Option.some "MECHANISM") (Option.some "PD") "Pfizer"
    "https://pipeline.test" "PIPELINE CONTENT"
    ⟨⟨Option.none, Option.none, Option.none, Option.none, Option.none⟩,
      Option.none, Option.none⟩ (by decide)

end Pharma
